import Mathlib

/-!
# Kapanak spaced-repetition core: shallow embedding and verification

Shallow embedding of the Kapanak flashcard scheduler:
* `js/sm2.js` — flat SM-2 variant (`calculateNextReview`, `getIntervalHint`,
  `sortCardsForReview`);
* the graduated SM-2 variant (second `sm2.js` module with learning /
  graduated / mature phases);
* the session controller of `app.js` (`handleReview`, `undoLastAction`)
  together with the Dexie-backed `CardDB.updateCard`.

Modelling conventions:
* JS numbers holding scheduling data are modelled exactly: `easeFactor` as a
  rational, `interval` and timestamps (milliseconds) as integers,
  `repetitions` as a natural number.  JS doubles differ from exact rationals
  by < 1e-14 in every reachable state considered here, far from each
  `Math.round` half-way boundary, so all rounded observables coincide.
* `Math.round` is round-half-up: `fun x => ⌊x + 1/2⌋`.
* `dueDate.setDate(getDate() + n)` (calendar-day addition) is modelled as
  adding `n` whole days of milliseconds; no claim depends on DST corners.
* `new Date()` inside the JS functions is made an explicit `now : ℤ`
  argument (milliseconds since epoch).
* The `Intl.Collator('pl', sensitivity 'base')` comparison is an external
  capability; the sort comparator is parameterised over it.
-/

/-- JS `Math.round`: rounds half-way cases up (`Math.round(12.48) = 12`,
`Math.round(1.3) = 1`). -/
def jsRound (x : ℚ) : ℤ := ⌊x + 1 / 2⌋
/-- Milliseconds in a day, for `setDate` day arithmetic. -/
def msPerDay : ℤ := 24 * 60 * 60 * 1000

/-- A flashcard as stored by `CardDB.createCard`: identifier, front text and
the SM-2 scheduling fields.  `back`, `createdAt` are never read by the
scheduling core and are omitted. -/
structure Card where
  id : ℕ
  front : String
  interval : ℤ
  easeFactor : ℚ
  repetitions : ℕ
  dueDate : ℤ
  lastReviewed : Option ℤ
deriving Repr, DecidableEq

/-- Flat SM-2 variant, `calculateNextReview` of `js/sm2.js`:
clone the card, stamp `lastReviewed`; on `quality < 3` reset
(`repetitions = 0`, `interval = 0`, due in one minute) and return; otherwise
update the ease factor by the SM-2 polynomial clamped at 1.3, pick the
interval by repetition count (0 → 1 day, 1 → 6 days, else
`round(interval × EF)`), apply the ×1.3 Easy bonus for quality 5, increment
`repetitions`, and set the due date `interval` days out. -/
def calculateNextReview (card : Card) (quality : ℤ) (now : ℤ) : Card :=
  let updated := { card with lastReviewed := some now }
  if quality < 3 then
    { updated with
        repetitions := 0
        interval := 0
        dueDate := now + 60 * 1000 }
  else
    let newEF : ℚ :=
      updated.easeFactor + (1/10 - (5 - (quality : ℚ)) * (8/100 + (5 - (quality : ℚ)) * (2/100)))
    let updated := { updated with easeFactor := max (13/10) newEF }
    let updated :=
      if updated.repetitions = 0 then
        { updated with interval := 1 }
      else if updated.repetitions = 1 then
        { updated with interval := 6 }
      else
        { updated with interval := jsRound ((updated.interval : ℚ) * updated.easeFactor) }
    let updated :=
      if quality = 5 then
        { updated with interval := jsRound ((updated.interval : ℚ) * (13/10)) }
      else updated
    let updated := { updated with repetitions := updated.repetitions + 1 }
    { updated with dueDate := now + updated.interval * msPerDay }

/-- `LEARNING_STEPS_MIN` of the graduated variant: sub-day steps, minutes. -/
def LEARNING_STEPS_MIN : List ℤ := [10]

/-- `GRADUATED_DAYS` of the graduated variant: day-based steps (reps 1–4). -/
def GRADUATED_DAYS : List ℤ := [1, 3, 7, 14]

/-- `LEARNING_COUNT = LEARNING_STEPS_MIN.length`. -/
def LEARNING_COUNT : ℕ := LEARNING_STEPS_MIN.length

/-- `GRADUATED_COUNT = GRADUATED_DAYS.length`. -/
def GRADUATED_COUNT : ℕ := GRADUATED_DAYS.length

/-- `MASTERY_THRESHOLD = LEARNING_COUNT + GRADUATED_COUNT` (= 5):
repetition count at which a card counts as mature. -/
def MASTERY_THRESHOLD : ℕ := LEARNING_COUNT + GRADUATED_COUNT

/-- Graduated SM-2 variant, `calculateNextReview` of the enhanced module:
same Fail path and ease update as the flat variant, then a phase switch on
the current repetition count: learning phase (rep < `LEARNING_COUNT`,
sub-day steps, Easy graduates to the first day interval), graduated phase
(fixed day steps, Easy skips one step when one exists, else ×1.3 bonus),
mature phase (`round(interval × EF)`, ×1.3 on Easy). -/
def calculateNextReviewGraduated (card : Card) (quality : ℤ) (now : ℤ) : Card :=
  let updated := { card with lastReviewed := some now }
  if quality < 3 then
    { updated with
        repetitions := 0
        interval := 0
        dueDate := now + 60 * 1000 }
  else
    let newEF : ℚ :=
      updated.easeFactor + (1/10 - (5 - (quality : ℚ)) * (8/100 + (5 - (quality : ℚ)) * (2/100)))
    let updated := { updated with easeFactor := max (13/10) newEF }
    let rep := updated.repetitions
    if rep < LEARNING_COUNT then
      if quality = 5 then
        let iv := GRADUATED_DAYS.getD 0 0
        { updated with
            interval := iv
            repetitions := LEARNING_COUNT + 1
            dueDate := now + iv * msPerDay }
      else
        let minutes := LEARNING_STEPS_MIN.getD rep 0
        { updated with
            interval := 0
            repetitions := rep + 1
            dueDate := now + minutes * 60 * 1000 }
    else
      let gradIndex := rep - LEARNING_COUNT
      if gradIndex < GRADUATED_COUNT then
        let updated :=
          if quality = 5 ∧ gradIndex + 1 < GRADUATED_COUNT then
            { updated with
                interval := GRADUATED_DAYS.getD (gradIndex + 1) 0
                repetitions := rep + 2 }
          else
            let updated := { updated with
                interval := GRADUATED_DAYS.getD gradIndex 0
                repetitions := rep + 1 }
            if quality = 5 then
              { updated with interval := jsRound ((updated.interval : ℚ) * (13/10)) }
            else updated
        { updated with dueDate := now + updated.interval * msPerDay }
      else
        let updated :=
          { updated with interval := jsRound ((updated.interval : ℚ) * updated.easeFactor) }
        let updated :=
          if quality = 5 then
            { updated with interval := jsRound ((updated.interval : ℚ) * (13/10)) }
          else updated
        let updated := { updated with repetitions := rep + 1 }
        { updated with dueDate := now + updated.interval * msPerDay }

/-- Decimal rendering of a JS number known to be `tenths / 10` with
`tenths ≥ 0`: JS prints `2` for `2.0` and `1.1` for `1.1`. -/
def formatTenths (tenths : ℤ) : String :=
  if tenths % 10 = 0 then toString (tenths / 10)
  else toString (tenths / 10) ++ "." ++ toString (tenths % 10)

/-- `getIntervalHint` of `js/sm2.js`: simulate the review with
`calculateNextReview`, then format the resulting interval (`quality < 3` is
a fixed short-delay descriptor; 1 day / days / rounded months / years to one
decimal). -/
def getIntervalHint (card : Card) (quality : ℤ) (now : ℤ) : String :=
  let simulated := calculateNextReview card quality now
  if quality < 3 then "<1min"
  else
    let interval := simulated.interval
    if interval = 1 then "1 day"
    else if interval < 30 then toString interval ++ " days"
    else if interval < 365 then
      let months := jsRound ((interval : ℚ) / 30)
      if months = 1 then "1 month" else toString months ++ " months"
    else
      let tenths := jsRound ((interval : ℚ) / 365 * 10)
      if tenths = 10 then "1 year" else formatTenths tenths ++ " years"

/-- `getIntervalHint` as the caller's card object observes it: the returned
pair is (the descriptor, the caller's card after the call).  In the source
`calculateNextReview` first clones its argument (`const updated =
{ ...card }`) and every subsequent write targets the clone, so the call
leaves the caller's card exactly as it was. -/
def getIntervalHintRun (card : Card) (quality : ℤ) (now : ℤ) : String × Card :=
  (getIntervalHint card quality now, card)

/-- The comparator the flat variant's `sortCardsForReview` passes to
`Array.prototype.sort`: new cards (`repetitions === 0`) first, then by due
date, finally by the injected locale collation on `front`
(`Intl.Collator('pl', sensitivity 'base')`). -/
def sortCardsForReviewCmp (collator : String → String → ℤ) (a b : Card) : ℤ :=
  if a.repetitions = 0 ∧ b.repetitions ≠ 0 then -1
  else if a.repetitions ≠ 0 ∧ b.repetitions = 0 then 1
  else if a.dueDate < b.dueDate then -1
  else if b.dueDate < a.dueDate then 1
  else collator a.front b.front

/-- The comparator the graduated variant's `sortCardsForReview` passes to
`Array.prototype.sort`: learning/graduated cards
(`repetitions < MASTERY_THRESHOLD`) before mature cards, then by due date,
finally by the injected locale collation on `front`. -/
def sortCardsForReviewCmpGraduated (collator : String → String → ℤ) (a b : Card) : ℤ :=
  if a.repetitions < MASTERY_THRESHOLD ∧ ¬b.repetitions < MASTERY_THRESHOLD then -1
  else if ¬a.repetitions < MASTERY_THRESHOLD ∧ b.repetitions < MASTERY_THRESHOLD then 1
  else if a.dueDate < b.dueDate then -1
  else if b.dueDate < a.dueDate then 1
  else collator a.front b.front

/-- The card store behind `CardDB`: `db.cards.update(id, updated)` replaces
the record whose primary key is `id` (a no-op when no record has that key).
The full updated card is passed, so the merge is a replacement. -/
def dbUpdate (db : List Card) (id : ℕ) (c : Card) : List Card :=
  db.map fun x => if x.id = id then c else x

/-- `db.cards.get(id)`: the record keyed by `id`, if any. -/
def dbGet (db : List Card) (id : ℕ) : Option Card :=
  db.find? fun x => x.id == id

/-- The module-scope session variables of `app.js` that the review handlers
read and write: `studyQueue`, `currentCardIndex`, `reviewedCount`,
`lastAction` (the single undo slot: pre-review card snapshot and its queue
index), plus the card store they persist into. -/
structure SessionState where
  studyQueue : List Card
  currentCardIndex : ℕ
  reviewedCount : ℕ
  lastAction : Option (Card × ℕ)
  db : List Card
deriving Repr, DecidableEq

/-- `handleReview(quality)` of `app.js` (study mode, the path both source
variants share): read the current card; save the `{ ...card }` snapshot and
index into the undo slot; compute `updated = SM2.calculateNextReview(card,
quality)`; `await CardDB.updateCard(card.id, updated)` — `persistOk` is the
outcome of that awaited write, and when it rejects the thrown promise
leaves every later statement unexecuted (only the undo slot, already
written, has changed); then on `quality === 0` write `updated` into the
current slot, splice it out and push it to the tail, leaving the cursor
where it was, else increment `reviewedCount` and the cursor.  The returned
flag is whether the review completed.  The `none` branch is unreachable in
the app: `showCard` ends the session before the cursor leaves the queue. -/
def handleReview (s : SessionState) (quality : ℤ) (now : ℤ) (persistOk : Bool) :
    SessionState × Bool :=
  match s.studyQueue[s.currentCardIndex]? with
  | none => (s, false)
  | some card =>
    let s1 := { s with lastAction := some (card, s.currentCardIndex) }
    let updated := calculateNextReview card quality now
    if persistOk then
      let s2 := { s1 with db := dbUpdate s1.db card.id updated }
      if quality = 0 then
        let q1 := s2.studyQueue.set s2.currentCardIndex updated
        let q2 := q1.take s2.currentCardIndex ++ q1.drop (s2.currentCardIndex + 1)
        let q3 :=
          match q1[s2.currentCardIndex]? with
          | some failedCard => q2 ++ [failedCard]
          | none => q2
        ({ s2 with studyQueue := q3 }, true)
      else
        ({ s2 with
            reviewedCount := s2.reviewedCount + 1
            currentCardIndex := s2.currentCardIndex + 1 }, true)
    else
      (s1, false)

/-- `undoLastAction()` of `app.js`: no-op when the undo slot is empty;
otherwise write the snapshot back to the store, drop every queue entry with
the snapshot's id (`studyQueue.filter(c => c.id !== card.id)`), splice the
snapshot back in at its original index, move the cursor back there,
decrement `reviewedCount` when positive, and clear the slot. -/
def undoLastAction (s : SessionState) : SessionState :=
  match s.lastAction with
  | none => s
  | some (card, index) =>
    let db := dbUpdate s.db card.id card
    let filtered := s.studyQueue.filter fun c => c.id != card.id
    let q := filtered.take index ++ [card] ++ filtered.drop index
    { s with
        db := db
        studyQueue := q
        currentCardIndex := index
        reviewedCount := if 0 < s.reviewedCount then s.reviewedCount - 1 else s.reviewedCount
        lastAction := none }

/-! ## Concrete fixtures

A card exactly as `CardDB.createCard` initialises it (`interval = 0`,
`easeFactor = 2.5`, `repetitions = 0`, due now), and a three-card session
as `startStudy` builds one. -/

/-- A freshly created card: the `createCard` defaults. -/
def freshCard : Card :=
  { id := 0, front := "", interval := 0, easeFactor := 5/2, repetitions := 0,
    dueDate := 0, lastReviewed := none }

/-- The fresh card after one Good (quality 3) review under the flat schedule. -/
def goodOnce : Card := calculateNextReview freshCard 3 0

/-- …after a second Good review. -/
def goodTwice : Card := calculateNextReview goodOnce 3 0

/-- …after a third Good review. -/
def goodThrice : Card := calculateNextReview goodTwice 3 0

/-- First card of the three-card session fixture. -/
def cardA : Card :=
  { id := 1, front := "ala", interval := 0, easeFactor := 5/2, repetitions := 0,
    dueDate := 0, lastReviewed := none }

/-- Second card of the three-card session fixture. -/
def cardB : Card :=
  { id := 2, front := "bok", interval := 0, easeFactor := 5/2, repetitions := 0,
    dueDate := 1000, lastReviewed := none }

/-- Third card of the three-card session fixture. -/
def cardC : Card :=
  { id := 3, front := "cel", interval := 0, easeFactor := 5/2, repetitions := 0,
    dueDate := 2000, lastReviewed := none }

/-- A just-started three-card study session over `cardA`, `cardB`, `cardC`. -/
def session3 : SessionState :=
  { studyQueue := [cardA, cardB, cardC], currentCardIndex := 0,
    reviewedCount := 0, lastAction := none, db := [cardA, cardB, cardC] }

/-! ## Helper lemmas -/

/-- Neither path of the flat policy engine writes the `id` field. -/
theorem calculateNextReview_id (card : Card) (quality now : ℤ) :
    (calculateNextReview card quality now).id = card.id := by
  simp only [calculateNextReview]
  split_ifs <;> rfl

/-- The Fail path of `handleReview` in one equation: the current slot is
overwritten with the post-review card and spliced to the tail, while the
cursor and the reviewed count stay put. -/
theorem handleReview_fail_state (s : SessionState) (now : ℤ) (card : Card)
    (h : s.studyQueue[s.currentCardIndex]? = some card) :
    (handleReview s 0 now true).1.studyQueue =
      s.studyQueue.take s.currentCardIndex ++ s.studyQueue.drop (s.currentCardIndex + 1)
        ++ [calculateNextReview card 0 now] ∧
    (handleReview s 0 now true).1.currentCardIndex = s.currentCardIndex ∧
    (handleReview s 0 now true).1.reviewedCount = s.reviewedCount := by
  obtain ⟨hi, -⟩ := List.getElem?_eq_some_iff.mp h
  set i := s.currentCardIndex with hidef
  set u := calculateNextReview card 0 now with hudef
  have hq1 : s.studyQueue.set i u = s.studyQueue.take i ++ u :: s.studyQueue.drop (i + 1) :=
    List.set_eq_take_cons_drop u hi
  have hlen : (s.studyQueue.take i).length = i := by
    simp [List.length_take, Nat.min_eq_left (Nat.le_of_lt hi)]
  have htake : (s.studyQueue.set i u).take i = s.studyQueue.take i := by
    rw [hq1]; exact List.take_left' hlen
  have hdrop : (s.studyQueue.set i u).drop (i + 1) = s.studyQueue.drop (i + 1) := by
    rw [hq1, show s.studyQueue.take i ++ u :: s.studyQueue.drop (i + 1)
          = (s.studyQueue.take i ++ [u]) ++ s.studyQueue.drop (i + 1) by simp]
    exact List.drop_left' (by simp [hlen])
  have hget : (s.studyQueue.set i u)[i]? = some u := List.getElem?_set_self hi
  simp only [handleReview, h, if_pos, ite_true, ← hidef, ← hudef]
  simp only [hget, htake, hdrop]
  simp

/-- `CardDB.updateCard(i, c)` followed by `CardDB.getCard(i)` yields `c`,
whenever some record is stored under key `i`. -/
theorem dbGet_dbUpdate_self (db : List Card) (i : ℕ) (c : Card) (hc : c.id = i)
    (h : dbGet db i ≠ none) : dbGet (dbUpdate db i c) i = some c := by
  induction db with
  | nil => simp [dbGet] at h
  | cons x xs ih =>
    by_cases hx : x.id = i
    · simp [dbGet, dbUpdate, List.find?_cons, hx, hc]
    · simp only [dbGet, dbUpdate, List.map_cons, List.find?_cons] at h ⊢
      rw [if_neg hx]
      have hbeq : (x.id == i) = false := by simp [hx]
      rw [hbeq] at h
      simp only [hbeq]
      exact ih h

/-- When queue ids are pairwise distinct, the undo filter
`studyQueue.filter(c => c.id !== card.id)` removes exactly the occurrence of
the snapshotted card. -/
theorem filter_ne_id_of_nodup (q : List Card) (i : ℕ) (card : Card)
    (h : q[i]? = some card) (hids : (q.map Card.id).Nodup) :
    q.filter (fun c => c.id != card.id) = q.take i ++ q.drop (i + 1) := by
  obtain ⟨hi, hgi⟩ := List.getElem?_eq_some_iff.mp h
  have hdecomp : q = q.take i ++ card :: q.drop (i + 1) := by
    conv_lhs => rw [← List.take_append_drop i q]
    rw [List.drop_eq_getElem_cons hi, hgi]
  have hmap : (q.take i).map Card.id ++ card.id :: (q.drop (i + 1)).map Card.id
      = q.map Card.id := by
    conv_rhs => rw [hdecomp]
    simp
  rw [← hmap, List.nodup_append] at hids
  obtain ⟨-, hcons, hdisj⟩ := hids
  have hnotA : card.id ∉ (q.take i).map Card.id := fun hmem =>
    hdisj hmem (List.mem_cons_self _ _)
  have hnotB : card.id ∉ (q.drop (i + 1)).map Card.id := by
    simpa using (List.nodup_cons.mp hcons).1
  have hA : (q.take i).filter (fun c => c.id != card.id) = q.take i :=
    List.filter_eq_self.mpr fun a ha => by
      have hne : a.id ≠ card.id := fun hcontra =>
        hnotA (hcontra ▸ List.mem_map_of_mem Card.id ha)
      simpa using hne
  have hB : (q.drop (i + 1)).filter (fun c => c.id != card.id) = q.drop (i + 1) :=
    List.filter_eq_self.mpr fun a ha => by
      have hne : a.id ≠ card.id := fun hcontra =>
        hnotB (hcontra ▸ List.mem_map_of_mem Card.id ha)
      simpa using hne
  conv_lhs => rw [hdecomp]
  rw [List.filter_append, List.filter_cons]
  simp [hA, hB]

/-! ## Claims -/

/-- C1, counterexample: under the flat schedule, starting from
`{repetitions := 0, interval := 0, easeFactor := 2.5}`, after two Good
ratings the ease factor is 2.22 — not ≈ 2.6 — and the third Good rating
yields interval 12 days, not the claimed `round(6 × 2.6) = 16`: the q = 3
ease update adds `0.1 − 2 × (0.08 + 2 × 0.02) = −0.14`, a decrement. -/
theorem C1_counterexample :
    goodTwice.easeFactor = 111/50 ∧ goodThrice.interval = 12 ∧ goodThrice.interval ≠ 16 := by
  norm_num [goodThrice, goodTwice, goodOnce, freshCard, calculateNextReview, jsRound]

/-- C1, as amended: under the flat schedule, from `{repetitions := 0,
interval := 0, easeFactor := 2.5}`, the first Good rating gives
repetitions 1 and interval 1 day, the second repetitions 2 and interval 6
days, and the third repetitions 3 and interval `round(6 × 2.08) = 12` days;
each Good (q = 3) rating moves the ease factor by −0.14 (so it is 2.22
after two and 2.08 after three), because the ease-update polynomial is
negative at q = 3. -/
theorem C1_flat_three_goods :
    goodOnce.repetitions = 1 ∧ goodOnce.interval = 1 ∧
    goodOnce.easeFactor = freshCard.easeFactor - 14/100 ∧
    goodTwice.repetitions = 2 ∧ goodTwice.interval = 6 ∧
    goodTwice.easeFactor = 111/50 ∧
    goodThrice.repetitions = 3 ∧ goodThrice.interval = 12 ∧
    goodThrice.easeFactor = 52/25 := by
  norm_num [goodThrice, goodTwice, goodOnce, freshCard, calculateNextReview, jsRound]

/-- C2: for every pair of cards, the session comparator puts a card in an
active learning/graduated phase (`repetitions` below the mature threshold)
before any mature card regardless of due dates — in particular a card with
`repetitions = 0` sorts before a mature card even when its due date is
later — orders cards of one tier ascending by due date, and breaks exact
due-date ties with the injected locale collation on the front text; the
flat variant behaves the same with its new/seen tier split
(`repetitions === 0`). -/
theorem C2_ordering (col : String → String → ℤ) (a b : Card) :
    (a.repetitions < MASTERY_THRESHOLD → MASTERY_THRESHOLD ≤ b.repetitions →
      sortCardsForReviewCmpGraduated col a b = -1) ∧
    (MASTERY_THRESHOLD ≤ a.repetitions → b.repetitions < MASTERY_THRESHOLD →
      sortCardsForReviewCmpGraduated col a b = 1) ∧
    ((a.repetitions < MASTERY_THRESHOLD ↔ b.repetitions < MASTERY_THRESHOLD) →
      a.dueDate < b.dueDate → sortCardsForReviewCmpGraduated col a b = -1) ∧
    ((a.repetitions < MASTERY_THRESHOLD ↔ b.repetitions < MASTERY_THRESHOLD) →
      b.dueDate < a.dueDate → sortCardsForReviewCmpGraduated col a b = 1) ∧
    ((a.repetitions < MASTERY_THRESHOLD ↔ b.repetitions < MASTERY_THRESHOLD) →
      a.dueDate = b.dueDate → sortCardsForReviewCmpGraduated col a b = col a.front b.front) ∧
    (a.repetitions = 0 → b.repetitions ≠ 0 → sortCardsForReviewCmp col a b = -1) ∧
    ((a.repetitions = 0 ↔ b.repetitions = 0) → a.dueDate < b.dueDate →
      sortCardsForReviewCmp col a b = -1) ∧
    ((a.repetitions = 0 ↔ b.repetitions = 0) → a.dueDate = b.dueDate →
      sortCardsForReviewCmp col a b = col a.front b.front) := by
  refine ⟨?_, ?_, ?_, ?_, ?_, ?_, ?_, ?_⟩ <;>
    intro h1 h2 <;>
    simp only [sortCardsForReviewCmpGraduated, sortCardsForReviewCmp] <;>
    split_ifs <;> first | rfl | omega

/-- Witness for C2: a new card (`repetitions = 0`) due far in the future
still compares before a mature card (`repetitions = 7`) due immediately,
under both comparators. -/
theorem C2_ordering_witness :
    sortCardsForReviewCmpGraduated (fun _ _ => 0)
      { cardA with dueDate := 99999 } { cardB with repetitions := 7 } = -1 ∧
    sortCardsForReviewCmp (fun _ _ => 0)
      { cardA with dueDate := 99999 } { cardB with repetitions := 7 } = -1 :=
  ⟨(C2_ordering (fun _ _ => 0) { cardA with dueDate := 99999 }
      { cardB with repetitions := 7 }).1
      (by simp [cardA, MASTERY_THRESHOLD, LEARNING_COUNT, GRADUATED_COUNT,
        LEARNING_STEPS_MIN, GRADUATED_DAYS])
      (by simp [cardB, MASTERY_THRESHOLD, LEARNING_COUNT, GRADUATED_COUNT,
        LEARNING_STEPS_MIN, GRADUATED_DAYS]),
    (C2_ordering (fun _ _ => 0) { cardA with dueDate := 99999 }
      { cardB with repetitions := 7 }).2.2.2.2.2.1
      (by simp [cardA]) (by simp [cardB])⟩

/-- C3, counterexample: the out-of-domain quality 4 is not rejected and no
InvalidQuality report exists — submitting it invokes the policy engine and
persists its output (the stored card is no longer the original), and the
handler reports ordinary completion. -/
theorem C3_counterexample :
    (handleReview session3 4 0 true).2 = true ∧
    dbGet (handleReview session3 4 0 true).1.db cardA.id =
      some (calculateNextReview cardA 4 0) ∧
    dbGet (handleReview session3 4 0 true).1.db cardA.id ≠ some cardA := by
  refine ⟨by simp [handleReview, session3], ?_, ?_⟩
  · simp [handleReview, session3, dbGet, dbUpdate, cardA, cardB, cardC,
      calculateNextReview_id]
  · simp only [handleReview, session3, dbGet, dbUpdate]
    intro hcontra
    simp [cardA, cardB, cardC, calculateNextReview] at hcontra

/-- C3, as amended: quality ratings are not validated anywhere — for every
quality value, in-domain or not, submitting a review invokes the policy
engine on the current card and persists the result (values below 3 take
the Fail path, the rest the success path inside the engine), and the
review is reported as completed. -/
theorem C3_no_quality_validation (s : SessionState) (quality now : ℤ) (card : Card)
    (h : s.studyQueue[s.currentCardIndex]? = some card) :
    (handleReview s quality now true).2 = true ∧
    (handleReview s quality now true).1.db =
      dbUpdate s.db card.id (calculateNextReview card quality now) := by
  by_cases hq : quality = 0 <;> simp [handleReview, h, hq]

/-- Witness for C3: the amended claim at the three-card session with the
out-of-domain quality 4. -/
theorem C3_no_quality_validation_witness :
    (handleReview session3 4 0 true).2 = true ∧
    (handleReview session3 4 0 true).1.db =
      dbUpdate session3.db cardA.id (calculateNextReview cardA 4 0) :=
  C3_no_quality_validation session3 4 0 cardA (by rfl)

/-- C4: for every card and timestamp, a Fail rating (quality < 3) resets
repetitions to 0 and interval to 0, sets the due date one minute
(60 × 1000 ms) after now, leaves the ease factor untouched, and performs no
further computation — both variants return the identical reset state. -/
theorem C4_fail_resets (card : Card) (quality now : ℤ) (h : quality < 3) :
    (calculateNextReview card quality now).repetitions = 0 ∧
    (calculateNextReview card quality now).interval = 0 ∧
    (calculateNextReview card quality now).dueDate = now + 60 * 1000 ∧
    (calculateNextReview card quality now).easeFactor = card.easeFactor ∧
    calculateNextReviewGraduated card quality now = calculateNextReview card quality now := by
  simp [calculateNextReview, calculateNextReviewGraduated, h]

/-- Witness for C4: the fresh card rated Fail (quality 0) at time 0. -/
theorem C4_fail_resets_witness :
    (calculateNextReview freshCard 0 0).repetitions = 0 ∧
    (calculateNextReview freshCard 0 0).interval = 0 ∧
    (calculateNextReview freshCard 0 0).dueDate = 0 + 60 * 1000 ∧
    (calculateNextReview freshCard 0 0).easeFactor = freshCard.easeFactor ∧
    calculateNextReviewGraduated freshCard 0 0 = calculateNextReview freshCard 0 0 :=
  C4_fail_resets freshCard 0 0 (by norm_num)

/-- C5: for every card whose ease factor is at least 1.3, the card the
policy engine returns — either variant, any quality — again has ease
factor at least 1.3: the Fail path copies the ease factor and the success
path clamps with `Math.max(1.3, ·)`. -/
theorem C5_ease_clamp (card : Card) (quality now : ℤ)
    (h : 13/10 ≤ card.easeFactor) :
    13/10 ≤ (calculateNextReview card quality now).easeFactor ∧
    13/10 ≤ (calculateNextReviewGraduated card quality now).easeFactor := by
  constructor <;>
    · simp only [calculateNextReview, calculateNextReviewGraduated]
      split_ifs <;> simp_all

/-- Witness for C5: the fresh card (ease 2.5 ≥ 1.3) rated Good at time 0. -/
theorem C5_ease_clamp_witness :
    13/10 ≤ (calculateNextReview freshCard 3 0).easeFactor ∧
    13/10 ≤ (calculateNextReviewGraduated freshCard 3 0).easeFactor :=
  C5_ease_clamp freshCard 3 0 (by norm_num [freshCard])

/-- C6: rating the current card of an active queue as Fail keeps the queue
length, puts the failed card — in its updated post-review state — at the
tail, leaves the cursor and the reviewed count unchanged, and shifts what
was the next card into the freed slot (entries before the cursor are
untouched). -/
theorem C6_fail_requeues (s : SessionState) (now : ℤ) (card : Card)
    (h : s.studyQueue[s.currentCardIndex]? = some card) :
    (handleReview s 0 now true).1.studyQueue.length = s.studyQueue.length ∧
    (handleReview s 0 now true).1.studyQueue.getLast? =
      some (calculateNextReview card 0 now) ∧
    (handleReview s 0 now true).1.currentCardIndex = s.currentCardIndex ∧
    (handleReview s 0 now true).1.reviewedCount = s.reviewedCount ∧
    (∀ j, s.currentCardIndex ≤ j → j + 1 < s.studyQueue.length →
      (handleReview s 0 now true).1.studyQueue[j]? = s.studyQueue[j + 1]?) ∧
    (∀ j, j < s.currentCardIndex →
      (handleReview s 0 now true).1.studyQueue[j]? = s.studyQueue[j]?) := by
  obtain ⟨hq, hcur, hrc⟩ := handleReview_fail_state s now card h
  obtain ⟨hi, -⟩ := List.getElem?_eq_some_iff.mp h
  set i := s.currentCardIndex with hidef
  set u := calculateNextReview card 0 now with hudef
  have hlen : (s.studyQueue.take i).length = i := by
    simp [List.length_take, Nat.min_eq_left (Nat.le_of_lt hi)]
  refine ⟨?_, ?_, hcur, hrc, ?_, ?_⟩
  · rw [hq]; simp [hlen]; omega
  · rw [hq, List.append_assoc, ← List.append_assoc]
    exact List.getLast?_concat _
  · intro j hij hj1
    rw [hq, List.append_assoc,
      List.getElem?_append_right (by rw [hlen]; exact hij),
      List.getElem?_append_left (by simp [hlen]; omega),
      List.getElem?_drop]
    congr 1
    omega
  · intro j hji
    rw [hq, List.append_assoc, List.getElem?_append_left (by rw [hlen]; exact hji),
      List.getElem?_take]
    simp [hji]

/-- Witness for C6: the three-card session with its first card rated Fail —
length stays 3, the updated card is at the tail, the cursor stays 0 and now
points at what was the second card. -/
theorem C6_fail_requeues_witness :
    (handleReview session3 0 0 true).1.studyQueue.length = 3 ∧
    (handleReview session3 0 0 true).1.studyQueue.getLast? =
      some (calculateNextReview cardA 0 0) ∧
    (handleReview session3 0 0 true).1.currentCardIndex = 0 ∧
    (handleReview session3 0 0 true).1.reviewedCount = 0 ∧
    (handleReview session3 0 0 true).1.studyQueue[0]? = some cardB := by
  obtain ⟨h1, h2, h3, h4, h5, -⟩ := C6_fail_requeues session3 0 cardA (by rfl)
  refine ⟨by rw [h1]; rfl, h2, h3, h4, ?_⟩
  rw [h5 0 (by norm_num [session3]) (by norm_num [session3])]
  rfl

/-- C7: after one Good review, undo writes the exact pre-review snapshot
(all fields, the ease factor included) back to storage, restores the queue
and the cursor to their pre-review state, and decrements the reviewed
count; a second undo with no intervening review is a no-op. -/
theorem C7_undo_restores (s : SessionState) (now : ℤ) (card : Card)
    (h : s.studyQueue[s.currentCardIndex]? = some card)
    (hids : (s.studyQueue.map Card.id).Nodup)
    (hdb : dbGet s.db card.id ≠ none) :
    dbGet (undoLastAction (handleReview s 3 now true).1).db card.id = some card ∧
    (undoLastAction (handleReview s 3 now true).1).studyQueue = s.studyQueue ∧
    (undoLastAction (handleReview s 3 now true).1).currentCardIndex = s.currentCardIndex ∧
    (undoLastAction (handleReview s 3 now true).1).reviewedCount = s.reviewedCount ∧
    undoLastAction (undoLastAction (handleReview s 3 now true).1) =
      undoLastAction (handleReview s 3 now true).1 := by
  obtain ⟨hi, hgi⟩ := List.getElem?_eq_some_iff.mp h
  have hs1 : (handleReview s 3 now true).1 =
      { studyQueue := s.studyQueue
        currentCardIndex := s.currentCardIndex + 1
        reviewedCount := s.reviewedCount + 1
        lastAction := some (card, s.currentCardIndex)
        db := dbUpdate s.db card.id (calculateNextReview card 3 now) } := by
    simp [handleReview, h]
  have hfil := filter_ne_id_of_nodup s.studyQueue s.currentCardIndex card h hids
  have hlen : (s.studyQueue.take s.currentCardIndex).length = s.currentCardIndex := by
    simp [List.length_take, Nat.min_eq_left (Nat.le_of_lt hi)]
  have hq : (s.studyQueue.filter fun c => c.id != card.id).take s.currentCardIndex
        ++ [card] ++ (s.studyQueue.filter fun c => c.id != card.id).drop s.currentCardIndex
      = s.studyQueue := by
    rw [hfil, List.take_left' hlen, List.drop_left' hlen]
    conv_rhs => rw [← List.take_append_drop s.currentCardIndex s.studyQueue]
    rw [List.drop_eq_getElem_cons hi]
    simp [hgi]
  have hdb1 : dbGet (dbUpdate s.db card.id (calculateNextReview card 3 now)) card.id
      = some (calculateNextReview card 3 now) :=
    dbGet_dbUpdate_self s.db card.id _ (calculateNextReview_id card 3 now) hdb
  have hs2 : undoLastAction (handleReview s 3 now true).1 =
      { studyQueue := (s.studyQueue.filter fun c => c.id != card.id).take s.currentCardIndex
          ++ [card] ++ (s.studyQueue.filter fun c => c.id != card.id).drop s.currentCardIndex
        currentCardIndex := s.currentCardIndex
        reviewedCount := s.reviewedCount
        lastAction := none
        db := dbUpdate (dbUpdate s.db card.id (calculateNextReview card 3 now))
          card.id card } := by
    rw [hs1]
    simp [undoLastAction]
  rw [hs2]
  refine ⟨?_, hq, rfl, rfl, rfl⟩
  exact dbGet_dbUpdate_self _ card.id card rfl (by rw [hdb1]; simp)

/-- Witness for C7: the three-card session, first card reviewed Good, then
undone. -/
theorem C7_undo_restores_witness :
    dbGet (undoLastAction (handleReview session3 3 0 true).1).db cardA.id = some cardA ∧
    (undoLastAction (handleReview session3 3 0 true).1).studyQueue = session3.studyQueue ∧
    (undoLastAction (handleReview session3 3 0 true).1).currentCardIndex =
      session3.currentCardIndex ∧
    (undoLastAction (handleReview session3 3 0 true).1).reviewedCount =
      session3.reviewedCount ∧
    undoLastAction (undoLastAction (handleReview session3 3 0 true).1) =
      undoLastAction (handleReview session3 3 0 true).1 :=
  C7_undo_restores session3 0 cardA (by rfl)
    (by simp [session3, cardA, cardB, cardC])
    (by simp [session3, dbGet, cardA, cardB, cardC])

/-- C8: the interval preview is idempotent and free of side effects — for
one input it always yields the one descriptor `getIntervalHint` computes,
the card object the caller passed in is unchanged after the call (its
repetitions in particular), and a second call on that object returns the
identical descriptor. -/
theorem C8_preview_pure (card : Card) (quality now : ℤ) :
    (getIntervalHintRun card quality now).2 = card ∧
    (getIntervalHintRun card quality now).2.repetitions = card.repetitions ∧
    (getIntervalHintRun (getIntervalHintRun card quality now).2 quality now).1 =
      (getIntervalHintRun card quality now).1 ∧
    (getIntervalHintRun card quality now).1 = getIntervalHint card quality now :=
  ⟨rfl, rfl, rfl, rfl⟩

/-- C9: a review has no partial-success state — when the awaited persistence
of the updated card fails, the queue, the cursor, the reviewed count and the
store are all unchanged and the handler does not report completion; the
queue advances (cursor and reviewed count increment on a passing rating)
only when persistence succeeded. -/
theorem C9_no_partial_success (s : SessionState) (quality now : ℤ) (card : Card)
    (h : s.studyQueue[s.currentCardIndex]? = some card) :
    ((handleReview s quality now false).1.studyQueue = s.studyQueue ∧
      (handleReview s quality now false).1.currentCardIndex = s.currentCardIndex ∧
      (handleReview s quality now false).1.reviewedCount = s.reviewedCount ∧
      (handleReview s quality now false).1.db = s.db ∧
      (handleReview s quality now false).2 = false) ∧
    (quality ≠ 0 →
      (handleReview s quality now true).1.currentCardIndex = s.currentCardIndex + 1 ∧
      (handleReview s quality now true).1.reviewedCount = s.reviewedCount + 1) := by
  constructor
  · simp [handleReview, h]
  · intro hq
    simp [handleReview, h, hq]

/-- Witness for C9: the three-card session rated Good with failing
persistence (frozen) and with succeeding persistence (advances). -/
theorem C9_no_partial_success_witness :
    ((handleReview session3 3 0 false).1.studyQueue = session3.studyQueue ∧
      (handleReview session3 3 0 false).1.currentCardIndex = session3.currentCardIndex ∧
      (handleReview session3 3 0 false).1.reviewedCount = session3.reviewedCount ∧
      (handleReview session3 3 0 false).1.db = session3.db ∧
      (handleReview session3 3 0 false).2 = false) ∧
    ((3:ℤ) ≠ 0 →
      (handleReview session3 3 0 true).1.currentCardIndex = session3.currentCardIndex + 1 ∧
      (handleReview session3 3 0 true).1.reviewedCount = session3.reviewedCount + 1) :=
  C9_no_partial_success session3 3 0 cardA (by rfl)

/-- C10: in the flat variant, a new card (repetitions 0) rated Easy gets
interval 1 day — the Easy bonus `Math.round(1 × 1.3)` rounds back to 1 —
so Easy and Good agree on interval (1), repetitions (1), due date and
last-reviewed stamp, differing at most in the ease factor. -/
theorem C10_easy_equals_good_on_new (card : Card) (now : ℤ)
    (h : card.repetitions = 0) :
    (calculateNextReview card 5 now).interval = 1 ∧
    (calculateNextReview card 3 now).interval = 1 ∧
    (calculateNextReview card 5 now).repetitions = 1 ∧
    (calculateNextReview card 3 now).repetitions = 1 ∧
    (calculateNextReview card 5 now).dueDate = (calculateNextReview card 3 now).dueDate ∧
    (calculateNextReview card 5 now).lastReviewed =
      (calculateNextReview card 3 now).lastReviewed := by
  norm_num [calculateNextReview, jsRound, h]

/-- Witness for C10: the fresh card at time 0. -/
theorem C10_easy_equals_good_on_new_witness :
    (calculateNextReview freshCard 5 0).interval = 1 ∧
    (calculateNextReview freshCard 3 0).interval = 1 ∧
    (calculateNextReview freshCard 5 0).repetitions = 1 ∧
    (calculateNextReview freshCard 3 0).repetitions = 1 ∧
    (calculateNextReview freshCard 5 0).dueDate = (calculateNextReview freshCard 3 0).dueDate ∧
    (calculateNextReview freshCard 5 0).lastReviewed =
      (calculateNextReview freshCard 3 0).lastReviewed :=
  C10_easy_equals_good_on_new freshCard 0 (by norm_num [freshCard])
